import Mathlib

/-!
# VoiceRecorder: capture-and-remux pipeline of `main.cpp`

A shallow embedding of `main()` from `src/main.cpp`.  The program is a single
function that drives two external collaborators (a capture device and a
container writer).  Every outcome that `main` tests is a field of `Env`; a run
is the list of library calls `main` performs, in order, together with the exit
status it returns.

Conventions.
* Timestamps are mathematical integers (`Int`); the time-base converter is exact, as
  spec 4.1 asks.
* The status of `avcodec_parameters_from_context` (line 77) is an outcome of the
  run although `main` discards it.
* Pointer results that `main` never tests (`avcodec_find_encoder`,
  `avformat_new_stream`, `avcodec_alloc_context3`, `av_packet_alloc`) are taken to
  be valid objects: a null result is dereferenced by `main` (lines 67, 77, 97) and
  leaves the program without defined behaviour, which the model does not describe.
* The capture loop runs once per element of `Env.iterations`: the list ends where
  the clock test `now() - start_time < 30 s` (line 96) first fails.
-/

namespace VoiceRecorder

/-! ## Data model -/

/-- A rational time base `num / den`, the type of every `time_base` field. -/
structure AVRational where
  num : Int
  den : Int
deriving DecidableEq, Repr

/-- Media kind of a stream (`codecpar->codec_type`). -/
inductive AVMediaType where
  | AVMEDIA_TYPE_UNKNOWN
  | AVMEDIA_TYPE_VIDEO
  | AVMEDIA_TYPE_AUDIO
  | AVMEDIA_TYPE_DATA
  | AVMEDIA_TYPE_SUBTITLE
  | AVMEDIA_TYPE_ATTACHMENT
deriving DecidableEq, Repr

/-- One entry of `input_ctx->streams`: the two fields `main` reads. -/
structure AVStream where
  codec_type : AVMediaType
  time_base : AVRational
deriving DecidableEq, Repr

/-- The timing metadata of a packet; the payload is never touched by `main`. -/
structure AVPacket where
  pts : Int
  dts : Int
  duration : Int
  pos : Int
  stream_index : Int
deriving DecidableEq, Repr

/-- Modelled from the spec: the marker of an unknown/unset timestamp.  The library
header that defines `AV_NOPTS_VALUE` is not among the sources; it is the minimum
64-bit integer. -/
def AV_NOPTS_VALUE : Int := -(2 ^ 63)

/-- Modelled from the spec: the rounding of spec 4.1 for a non-negative divisor,
the quotient `n / d` rounded to the nearest integer, ties away from zero. -/
def round_half_away (n d : Int) : Int :=
  if 0 ≤ n then (n + d / 2) / d else -((-n + d / 2) / d)

/-- Modelled from the spec: the rounding of spec 4.1, the rational `n / d` rounded to
the nearest integer.  A negative divisor is first made positive by negating both
terms.  For `d = 0` no quotient exists; the definition then yields 0. -/
def round_nearest (n d : Int) : Int :=
  if d < 0 then round_half_away (-n) (-d) else round_half_away n d

/-- Modelled from the spec: `av_rescale_q` is the rescaling primitive of the
media library and is not among the sources; it is the time-base converter of
spec 4.1.  An unset timestamp maps to the unset timestamp; any other value `a`
expressed in time base `bq = (num_in, den_in)` is multiplied by
`(num_in * den_out) / (num_out * den_in)` for the target time base
`cq = (num_out, den_out)`, in exact arithmetic, and rounded to the nearest integer. -/
def av_rescale_q (a : Int) (bq cq : AVRational) : Int :=
  if a = AV_NOPTS_VALUE then AV_NOPTS_VALUE
  else round_nearest (a * (bq.num * cq.den)) (cq.num * bq.den)

/-! ## Outcomes of the external operations -/

/-- One pass through the body of the capture loop: what `av_read_frame` delivers
(`none` when it returns a negative status) and, should the packet be written,
whether `av_interleaved_write_frame` succeeds. -/
structure Iteration where
  read_frame : Option AVPacket
  write_ok : Bool
deriving DecidableEq, Repr

/-- Everything the collaborators decide in one run of the program. -/
structure Env where
  /-- Outcome `avformat_open_input(...) >= 0` (line 27) -/
  open_input_ok : Bool
  /-- Outcome `avformat_find_stream_info(...) >= 0` (line 33) -/
  find_stream_info_ok : Bool
  /-- The array `input_ctx->streams`, of length `nb_streams` -/
  streams : List AVStream
  /-- Whether `avformat_alloc_output_context2` delivered a context (line 57) -/
  output_ctx_ok : Bool
  /-- Outcome `avcodec_open2(...) >= 0` (line 73) -/
  codec_open_ok : Bool
  /-- Outcome `avcodec_parameters_from_context(...) >= 0` (line 77); `main` does not
  test it -/
  parameters_ok : Bool
  /-- Whether `output_ctx->oformat->flags & AVFMT_NOFILE` is set (lines 80, 121) -/
  nofile : Bool
  /-- Outcome `avio_open(...) >= 0` (line 81) -/
  avio_open_ok : Bool
  /-- Outcome `avformat_write_header(...) >= 0` (line 87) -/
  write_header_ok : Bool
  /-- The field `stream->time_base` of the output stream -/
  out_time_base : AVRational
  /-- The field `stream->index` of the output stream -/
  out_index : Int
  /-- The passes of the capture loop made before the deadline -/
  iterations : List Iteration
deriving Repr

/-- Lines written to `std::cerr` / `std::cout`. -/
inductive Msg where
  | failed_to_open_audio_device
  | could_not_find_stream_info
  | no_audio_stream_found
  | failed_to_create_output_context
  | failed_to_open_codec
  | failed_to_open_output_file
  | failed_to_write_header
  | error_writing_audio_frame
  | audio_capture_complete
deriving DecidableEq, Repr

/-- The text of each message, as in the source. -/
def Msg.text : Msg → String
  | .failed_to_open_audio_device => "Failed to open audio device: audio=Stereo Mix (Realtek(R) Audio)"
  | .could_not_find_stream_info => "Could not find stream info"
  | .no_audio_stream_found => "No audio stream found"
  | .failed_to_create_output_context => "Failed to create output context"
  | .failed_to_open_codec => "Failed to open codec"
  | .failed_to_open_output_file => "Failed to open output file"
  | .failed_to_write_header => "Failed to write header"
  | .error_writing_audio_frame => "Error writing audio frame"
  | .audio_capture_complete => "Audio capture complete - saved to output.wav"

/-- The observable calls of `main`, named after the library function called.  A
call that reports a status carries that outcome (`true` = success). -/
inductive Event where
  | avdevice_register_all
  | av_dict_set
  | av_find_input_format
  | avformat_open_input (ok : Bool)
  | avformat_find_stream_info (ok : Bool)
  | av_dump_format
  | avformat_alloc_output_context2 (ok : Bool)
  | avcodec_find_encoder
  | avformat_new_stream
  | avcodec_alloc_context3
  | av_channel_layout_copy
  | avcodec_open2 (ok : Bool)
  | avcodec_parameters_from_context (ok : Bool)
  | avio_open (ok : Bool)
  | avformat_write_header (ok : Bool)
  | av_packet_alloc
  | av_read_frame (ok : Bool)
  | av_interleaved_write_frame (pkt : AVPacket) (ok : Bool)
  | av_packet_unref
  | sleep_for
  | av_write_trailer
  | avio_closep
  | avformat_close_input
  | avformat_free_context
  | avcodec_free_context
  | av_packet_free
  | cerr (m : Msg)
  | cout (m : Msg)
deriving DecidableEq, Repr

/-- A finished run: the calls made, in order, and the value returned by `main`. -/
structure Run where
  trace : List Event
  status : Int
deriving DecidableEq, Repr

/-! ## The program -/

/-- Lines 41-47: scan of the streams from position `i` on; `-1` when none is audio.
The stream count is bounded by the library far below `INT_MAX`, so the conversion
`audio_stream = i` is exact. -/
def find_audio_stream_from : List AVStream → Nat → Int
  | [], _ => -1
  | s :: rest, i =>
    if s.codec_type = AVMediaType.AVMEDIA_TYPE_AUDIO then (i : Int)
    else find_audio_stream_from rest (i + 1)

/-- Lines 41-47: `audio_stream` after the scan. -/
def find_audio_stream (streams : List AVStream) : Int :=
  find_audio_stream_from streams 0

/-- The expression `input_ctx->streams[audio_stream]->time_base`. -/
def input_time_base (streams : List AVStream) (audio_stream : Int) : AVRational :=
  match streams.get? audio_stream.toNat with
  | some s => s.time_base
  | none => ⟨0, 1⟩

/-- Lines 99-107: the rewrite of a packet of the selected stream before it is
handed to the writer. -/
def rewrite_packet (pkt : AVPacket) (in_tb out_tb : AVRational) (out_index : Int) : AVPacket :=
  let pts := av_rescale_q pkt.pts in_tb out_tb
  { pts := pts
    dts := pts
    duration := av_rescale_q pkt.duration in_tb out_tb
    pos := -1
    stream_index := out_index }

/-- Lines 97-116: one pass through the loop body. -/
def capture_iteration (audio_stream : Int) (in_tb out_tb : AVRational) (out_index : Int)
    (it : Iteration) : List Event :=
  match it.read_frame with
  | none => [Event.av_read_frame false, Event.sleep_for]
  | some pkt =>
    if pkt.stream_index = audio_stream then
      [Event.av_read_frame true,
       Event.av_interleaved_write_frame (rewrite_packet pkt in_tb out_tb out_index) it.write_ok]
        ++ (if it.write_ok then [] else [Event.cerr Msg.error_writing_audio_frame])
        ++ [Event.av_packet_unref]
    else [Event.av_read_frame true, Event.sleep_for]

/-- Lines 96-117: the capture loop. -/
def capture_loop (audio_stream : Int) (in_tb out_tb : AVRational) (out_index : Int) :
    List Iteration → List Event
  | [] => []
  | it :: rest =>
    capture_iteration audio_stream in_tb out_tb out_index it
      ++ capture_loop audio_stream in_tb out_tb out_index rest

/-- Lines 119-131: cleanup after the loop. -/
def cleanup (nofile : Bool) : List Event :=
  [Event.av_write_trailer]
    ++ (if nofile then [] else [Event.avio_closep])
    ++ [Event.avformat_close_input, Event.avformat_free_context,
        Event.avcodec_free_context, Event.av_packet_free,
        Event.cout Msg.audio_capture_complete]

/-- Lines 15-27: the calls up to and including the evaluation of the arguments of
`avformat_open_input`. -/
def startup : List Event :=
  [Event.avdevice_register_all, Event.av_dict_set, Event.av_dict_set, Event.av_dict_set,
   Event.av_dict_set, Event.av_find_input_format]

/-- Lines 63-73: encoder lookup, stream attachment, context allocation and setup,
up to the call of `avcodec_open2`. -/
def encoder_setup : List Event :=
  [Event.avcodec_find_encoder, Event.avformat_new_stream, Event.avcodec_alloc_context3,
   Event.av_channel_layout_copy]

/-- The function `main` of `src/main.cpp`. -/
def main (env : Env) : Run :=
  let t0 := startup
  if ¬ env.open_input_ok then
    ⟨t0 ++ [Event.avformat_open_input false, Event.cerr Msg.failed_to_open_audio_device], 1⟩
  else
  let t1 := t0 ++ [Event.avformat_open_input true]
  if ¬ env.find_stream_info_ok then
    ⟨t1 ++ [Event.avformat_find_stream_info false, Event.cerr Msg.could_not_find_stream_info], 1⟩
  else
  let t2 := t1 ++ [Event.avformat_find_stream_info true, Event.av_dump_format]
  let audio_stream := find_audio_stream env.streams
  if audio_stream = -1 then
    ⟨t2 ++ [Event.cerr Msg.no_audio_stream_found], 1⟩
  else
  if ¬ env.output_ctx_ok then
    ⟨t2 ++ [Event.avformat_alloc_output_context2 false,
            Event.cerr Msg.failed_to_create_output_context], 1⟩
  else
  let t3 := t2 ++ [Event.avformat_alloc_output_context2 true] ++ encoder_setup
  if ¬ env.codec_open_ok then
    ⟨t3 ++ [Event.avcodec_open2 false, Event.cerr Msg.failed_to_open_codec], 1⟩
  else
  let t4 := t3 ++ [Event.avcodec_open2 true,
    Event.avcodec_parameters_from_context env.parameters_ok]
  if ¬ env.nofile ∧ ¬ env.avio_open_ok then
    ⟨t4 ++ [Event.avio_open false, Event.cerr Msg.failed_to_open_output_file], 1⟩
  else
  let t5 := t4 ++ (if env.nofile then [] else [Event.avio_open true])
  if ¬ env.write_header_ok then
    ⟨t5 ++ [Event.avformat_write_header false, Event.cerr Msg.failed_to_write_header], 1⟩
  else
  let t6 := t5 ++ [Event.avformat_write_header true, Event.av_packet_alloc]
  let in_tb := input_time_base env.streams audio_stream
  ⟨t6 ++ capture_loop audio_stream in_tb env.out_time_base env.out_index env.iterations
      ++ cleanup env.nofile, 0⟩

/-! ## Vocabulary of the properties -/

/-- Every setup outcome that `main` tests is a success: device open, stream-info
probe, an audio stream is present, output container allocation, encoder open, sink
open (when the format needs a file) and header write.  These are the runs that
enter the capture loop. -/
def setup_ok (env : Env) : Prop :=
  env.open_input_ok = true ∧ env.find_stream_info_ok = true
    ∧ (∃ s ∈ env.streams, s.codec_type = AVMediaType.AVMEDIA_TYPE_AUDIO)
    ∧ env.output_ctx_ok = true ∧ env.codec_open_ok = true
    ∧ (env.nofile = true ∨ env.avio_open_ok = true) ∧ env.write_header_ok = true

instance (env : Env) : Decidable (setup_ok env) := by
  unfold setup_ok
  infer_instance

/-- The packets handed to `av_interleaved_write_frame`, in order. -/
def written_packets : List Event → List AVPacket
  | [] => []
  | Event.av_interleaved_write_frame pkt _ :: rest => pkt :: written_packets rest
  | _ :: rest => written_packets rest

/-- The packets delivered by successful reads whose stream index is the selected
one, in order. -/
def selected_packets (audio_stream : Int) : List Iteration → List AVPacket
  | [] => []
  | it :: rest =>
    match it.read_frame with
    | some pkt =>
      if pkt.stream_index = audio_stream then pkt :: selected_packets audio_stream rest
      else selected_packets audio_stream rest
    | none => selected_packets audio_stream rest

/-- The passes of the loop in which a packet of the selected stream is read and its
write fails. -/
def failed_writes (audio_stream : Int) : List Iteration → Nat
  | [] => 0
  | it :: rest =>
    match it.read_frame with
    | some pkt =>
      if pkt.stream_index = audio_stream ∧ it.write_ok = false then
        failed_writes audio_stream rest + 1
      else failed_writes audio_stream rest
    | none => failed_writes audio_stream rest

/-- A call of `av_interleaved_write_frame`. -/
def Event.is_packet_write : Event → Bool
  | Event.av_interleaved_write_frame _ _ => true
  | _ => false

/-- A call of `av_read_frame`. -/
def Event.is_packet_read : Event → Bool
  | Event.av_read_frame _ => true
  | _ => false

/-- A call of `avformat_write_header`, whatever its outcome. -/
def Event.is_header_write : Event → Bool
  | Event.avformat_write_header _ => true
  | _ => false

/-- A line written to `std::cerr`. -/
def Event.is_error_message : Event → Bool
  | Event.cerr _ => true
  | _ => false

/-- The four native resources of a run. -/
inductive Resource where
  | input_handle
  | output_context
  | encoder_context
  | byte_sink
deriving DecidableEq, Repr

/-- The resources acquired in a trace, in order of acquisition. -/
def acquired : List Event → List Resource
  | [] => []
  | Event.avformat_open_input true :: rest => Resource.input_handle :: acquired rest
  | Event.avformat_alloc_output_context2 true :: rest => Resource.output_context :: acquired rest
  | Event.avcodec_alloc_context3 :: rest => Resource.encoder_context :: acquired rest
  | Event.avio_open true :: rest => Resource.byte_sink :: acquired rest
  | _ :: rest => acquired rest

/-- The resources released in a trace, in order of release. -/
def released : List Event → List Resource
  | [] => []
  | Event.avformat_close_input :: rest => Resource.input_handle :: released rest
  | Event.avformat_free_context :: rest => Resource.output_context :: released rest
  | Event.avcodec_free_context :: rest => Resource.encoder_context :: released rest
  | Event.avio_closep :: rest => Resource.byte_sink :: released rest
  | _ :: rest => released rest

/-! ## Run shapes and sample runs -/

/-- The calls of a run up to the start of the capture loop, when every outcome that
`main` tests is a success; `params` is the status of
`avcodec_parameters_from_context`. -/
def setup_trace (nofile params : Bool) : List Event :=
  startup ++ [Event.avformat_open_input true, Event.avformat_find_stream_info true,
      Event.av_dump_format, Event.avformat_alloc_output_context2 true]
    ++ encoder_setup
    ++ [Event.avcodec_open2 true, Event.avcodec_parameters_from_context params]
    ++ (if nofile then [] else [Event.avio_open true])
    ++ [Event.avformat_write_header true, Event.av_packet_alloc]

/-- The calls of a run up to the end of the encoder setup, when every outcome tested
so far is a success. -/
def encoder_ready_trace (params : Bool) : List Event :=
  startup ++ [Event.avformat_open_input true, Event.avformat_find_stream_info true,
      Event.av_dump_format, Event.avformat_alloc_output_context2 true]
    ++ encoder_setup
    ++ [Event.avcodec_open2 true, Event.avcodec_parameters_from_context params]

/-- The runs that end in a failed setup test, one per early return of `main`, for a
container format with (`nofile = true`) or without the no-file flag and for either
status `params` of `avcodec_parameters_from_context`. -/
def failure_runs (nofile params : Bool) : List Run :=
  [ ⟨startup ++ [Event.avformat_open_input false, Event.cerr Msg.failed_to_open_audio_device], 1⟩,
    ⟨startup ++ [Event.avformat_open_input true, Event.avformat_find_stream_info false,
        Event.cerr Msg.could_not_find_stream_info], 1⟩,
    ⟨startup ++ [Event.avformat_open_input true, Event.avformat_find_stream_info true,
        Event.av_dump_format, Event.cerr Msg.no_audio_stream_found], 1⟩,
    ⟨startup ++ [Event.avformat_open_input true, Event.avformat_find_stream_info true,
        Event.av_dump_format, Event.avformat_alloc_output_context2 false,
        Event.cerr Msg.failed_to_create_output_context], 1⟩,
    ⟨startup ++ [Event.avformat_open_input true, Event.avformat_find_stream_info true,
        Event.av_dump_format, Event.avformat_alloc_output_context2 true] ++ encoder_setup
      ++ [Event.avcodec_open2 false, Event.cerr Msg.failed_to_open_codec], 1⟩ ]
  ++ (if nofile then
        [ ⟨encoder_ready_trace params
            ++ [Event.avformat_write_header false, Event.cerr Msg.failed_to_write_header], 1⟩ ]
      else
        [ ⟨encoder_ready_trace params
            ++ [Event.avio_open false, Event.cerr Msg.failed_to_open_output_file], 1⟩,
          ⟨encoder_ready_trace params
            ++ [Event.avio_open true, Event.avformat_write_header false,
                Event.cerr Msg.failed_to_write_header], 1⟩ ])

/-- The calls that the body of the capture loop can make. -/
def Event.is_loop_event : Event → Bool
  | Event.av_read_frame _ => true
  | Event.av_interleaved_write_frame _ _ => true
  | Event.cerr Msg.error_writing_audio_frame => true
  | Event.av_packet_unref => true
  | Event.sleep_for => true
  | _ => false

/-- The time base of the selected input stream. -/
def selected_time_base (env : Env) : AVRational :=
  input_time_base env.streams (find_audio_stream env.streams)

/-- The packets of the selected stream read during the capture loop of a run. -/
def selected (env : Env) : List AVPacket :=
  selected_packets (find_audio_stream env.streams) env.iterations

/-- The packets handed to the writer during a run. -/
def written (env : Env) : List AVPacket :=
  written_packets (main env).trace

/-- A run with a video and an audio stream (time base 1/48000), output time base
1/44100, and one second of audio at pts 48000. -/
def env_happy : Env :=
  { open_input_ok := true
    find_stream_info_ok := true
    streams := [⟨AVMediaType.AVMEDIA_TYPE_VIDEO, ⟨1, 25⟩⟩, ⟨AVMediaType.AVMEDIA_TYPE_AUDIO, ⟨1, 48000⟩⟩]
    output_ctx_ok := true
    codec_open_ok := true
    parameters_ok := true
    nofile := false
    avio_open_ok := true
    write_header_ok := true
    out_time_base := ⟨1, 44100⟩
    out_index := 0
    iterations := [⟨some ⟨48000, 48000, 1024, 4096, 1⟩, true⟩] }

/-- As `env_happy`, but the packet read carries a decode timestamp different from
its presentation timestamp. -/
def env_dts : Env :=
  { env_happy with iterations := [⟨some ⟨48000, 0, 1024, 4096, 1⟩, true⟩] }

/-- The number of calls of `avformat_write_header` in a trace. -/
def header_writes (t : List Event) : Nat := t.countP Event.is_header_write

/-- A run in which every setup step up to the header write succeeds and the header
write fails. -/
def env_header_fails : Env :=
  { env_happy with write_header_ok := false }

/-- A run in which every outcome that `main` tests is a success and
`avcodec_parameters_from_context` reports a failure. -/
def env_parameters_fail : Env :=
  { env_happy with parameters_ok := false }

/-- A run in which the device opens and the stream-info probe fails. -/
def env_probe_fails : Env :=
  { env_happy with find_stream_info_ok := false }

/-- A call of `av_interleaved_write_frame` that reports failure. -/
def Event.is_failed_write : Event → Bool
  | Event.av_interleaved_write_frame _ false => true
  | _ => false

/-- A run of six packets of the selected stream in which the fifth write fails. -/
def env_fifth_write_fails : Env :=
  { env_happy with
    iterations :=
      [⟨some ⟨0, 0, 1024, 0, 1⟩, true⟩, ⟨some ⟨1024, 1024, 1024, 0, 1⟩, true⟩,
       ⟨some ⟨2048, 2048, 1024, 0, 1⟩, true⟩, ⟨some ⟨3072, 3072, 1024, 0, 1⟩, true⟩,
       ⟨some ⟨4096, 4096, 1024, 0, 1⟩, false⟩, ⟨some ⟨5120, 5120, 1024, 0, 1⟩, true⟩] }

/-- Every setup step succeeds: the outcomes that `main` tests and the status of
`avcodec_parameters_from_context`, which it does not test. -/
def all_setup_steps_ok (env : Env) : Prop :=
  setup_ok env ∧ env.parameters_ok = true

instance (env : Env) : Decidable (all_setup_steps_ok env) := by
  unfold all_setup_steps_ok
  infer_instance

/-- A run in which the packet read carries the unset marker as pts and a set dts. -/
def env_unset : Env :=
  { env_happy with iterations := [⟨some ⟨AV_NOPTS_VALUE, 7, 1024, 4096, 1⟩, true⟩] }

/-- A run of two packets of the selected stream with increasing pts. -/
def env_two_packets : Env :=
  { env_happy with
    iterations := [⟨some ⟨1000, 1000, 1024, 0, 1⟩, true⟩, ⟨some ⟨1001, 1001, 1024, 0, 1⟩, true⟩] }

/-! ## Auxiliary facts -/

theorem find_audio_stream_from_spec (streams : List AVStream) (i : Nat) :
    (find_audio_stream_from streams i = -1
        ∧ ∀ s ∈ streams, s.codec_type ≠ AVMediaType.AVMEDIA_TYPE_AUDIO)
    ∨ ∃ k : Nat, find_audio_stream_from streams i = ((i + k : Nat) : Int)
        ∧ (∃ s, streams.get? k = some s ∧ s.codec_type = AVMediaType.AVMEDIA_TYPE_AUDIO)
        ∧ ∀ j, j < k → ∀ s, streams.get? j = some s →
            s.codec_type ≠ AVMediaType.AVMEDIA_TYPE_AUDIO := by
  induction streams generalizing i with
  | nil => left; simp [find_audio_stream_from]
  | cons s rest ih =>
    by_cases hs : s.codec_type = AVMediaType.AVMEDIA_TYPE_AUDIO
    · right
      refine ⟨0, by simp [find_audio_stream_from, hs], ⟨s, by simp, hs⟩, ?_⟩
      intro j hj; omega
    · rcases ih (i + 1) with ⟨h1, h2⟩ | ⟨k, h1, ⟨t, ht, hta⟩, h3⟩
      · left
        refine ⟨by simp [find_audio_stream_from, hs, h1], ?_⟩
        intro t ht
        rcases List.mem_cons.mp ht with rfl | ht
        · exact hs
        · exact h2 t ht
      · right
        refine ⟨k + 1, ?_, ⟨t, by simpa using ht, hta⟩, ?_⟩
        · simp [find_audio_stream_from, hs, h1]; omega
        · intro j hj t ht
          cases j with
          | zero => simp at ht; subst ht; exact hs
          | succ j => exact h3 j (by omega) t (by simpa using ht)

theorem find_audio_stream_eq_neg_one_iff (streams : List AVStream) :
    find_audio_stream streams = -1
      ↔ ∀ s ∈ streams, s.codec_type ≠ AVMediaType.AVMEDIA_TYPE_AUDIO := by
  unfold find_audio_stream
  rcases find_audio_stream_from_spec streams 0 with ⟨h1, h2⟩ | ⟨k, h1, ⟨t, ht, hta⟩, _⟩
  · exact ⟨fun _ => h2, fun _ => h1⟩
  · constructor
    · intro h; rw [h1] at h; omega
    · intro h
      exact absurd hta (h t (List.get?_mem ht))

theorem main_of_setup_ok (env : Env) (h : setup_ok env) :
    main env = ⟨setup_trace env.nofile env.parameters_ok
      ++ capture_loop (find_audio_stream env.streams)
          (input_time_base env.streams (find_audio_stream env.streams))
          env.out_time_base env.out_index env.iterations
      ++ cleanup env.nofile, 0⟩ := by
  obtain ⟨h1, h2, ⟨s, hs, hsa⟩, h4, h5, h6, h7⟩ := h
  have hne : find_audio_stream env.streams ≠ -1 := by
    intro hc
    exact (find_audio_stream_eq_neg_one_iff env.streams).mp hc s hs hsa
  unfold main
  rcases h6 with h6 | h6 <;>
    simp [h1, h2, hne, h4, h5, h6, h7, setup_trace, List.append_assoc]

theorem main_of_not_setup_ok (env : Env) (h : ¬ setup_ok env) :
    main env ∈ failure_runs env.nofile env.parameters_ok := by
  unfold setup_ok at h
  unfold main
  by_cases h1 : env.open_input_ok = true
  · by_cases h2 : env.find_stream_info_ok = true
    · by_cases h3 : find_audio_stream env.streams = -1
      · simp [h1, h2, h3, failure_runs]
      · have h3a : ∃ s ∈ env.streams, s.codec_type = AVMediaType.AVMEDIA_TYPE_AUDIO := by
          by_contra hc
          push_neg at hc
          exact h3 ((find_audio_stream_eq_neg_one_iff env.streams).mpr hc)
        by_cases h4 : env.output_ctx_ok = true
        · by_cases h5 : env.codec_open_ok = true
          · by_cases h6 : env.nofile = true
            · have h7 : env.write_header_ok = false := by
                by_contra hc
                exact h ⟨h1, h2, h3a, h4, h5, Or.inl h6, by simpa using hc⟩
              simp [h1, h2, h3, h4, h5, h6, h7, failure_runs, encoder_ready_trace, List.append_assoc]
            · by_cases h6a : env.avio_open_ok = true
              · have h7 : env.write_header_ok = false := by
                  by_contra hc
                  exact h ⟨h1, h2, h3a, h4, h5, Or.inr h6a, by simpa using hc⟩
                simp [h1, h2, h3, h4, h5, h6, h6a, h7, failure_runs, encoder_ready_trace, List.append_assoc]
              · simp [h1, h2, h3, h4, h5, h6, h6a, failure_runs, encoder_ready_trace, List.append_assoc]
          · simp [h1, h2, h3, h4, h5, failure_runs, encoder_ready_trace, List.append_assoc]
        · simp [h1, h2, h3, h4, failure_runs]
    · simp [h1, h2, failure_runs]
  · simp [h1, failure_runs]

theorem written_packets_append (l1 l2 : List Event) :
    written_packets (l1 ++ l2) = written_packets l1 ++ written_packets l2 := by
  induction l1 with
  | nil => simp [written_packets]
  | cons e rest ih => cases e <;> simp [written_packets, ih]

theorem acquired_append (l1 l2 : List Event) :
    acquired (l1 ++ l2) = acquired l1 ++ acquired l2 := by
  induction l1 with
  | nil => simp [acquired]
  | cons e rest ih =>
    cases e with
    | avformat_open_input ok => cases ok <;> simp [acquired, ih]
    | avformat_alloc_output_context2 ok => cases ok <;> simp [acquired, ih]
    | avio_open ok => cases ok <;> simp [acquired, ih]
    | _ => simp [acquired, ih]

theorem released_append (l1 l2 : List Event) :
    released (l1 ++ l2) = released l1 ++ released l2 := by
  induction l1 with
  | nil => simp [released]
  | cons e rest ih => cases e <;> simp [released, ih]

theorem capture_iteration_loop_events (a : Int) (tb_in tb_out : AVRational) (idx : Int)
    (it : Iteration) : ∀ e ∈ capture_iteration a tb_in tb_out idx it, e.is_loop_event = true := by
  intro e he
  unfold capture_iteration at he
  split at he
  · simp at he; rcases he with rfl | rfl <;> rfl
  · split_ifs at he <;> simp at he <;> rcases he with rfl | rfl | rfl | rfl <;> rfl

theorem capture_loop_loop_events (a : Int) (tb_in tb_out : AVRational) (idx : Int)
    (its : List Iteration) : ∀ e ∈ capture_loop a tb_in tb_out idx its, e.is_loop_event = true := by
  induction its with
  | nil => simp [capture_loop]
  | cons it rest ih =>
    intro e he
    simp only [capture_loop, List.mem_append] at he
    rcases he with he | he
    · exact capture_iteration_loop_events a tb_in tb_out idx it e he
    · exact ih e he

theorem written_packets_capture_loop (a : Int) (tb_in tb_out : AVRational) (idx : Int)
    (its : List Iteration) :
    written_packets (capture_loop a tb_in tb_out idx its)
      = (selected_packets a its).map (fun p => rewrite_packet p tb_in tb_out idx) := by
  induction its with
  | nil => simp [capture_loop, written_packets, selected_packets]
  | cons it rest ih =>
    rcases it with ⟨_ | pkt, w⟩
    · simp [capture_loop, capture_iteration, written_packets, selected_packets, ih]
    · by_cases hp : pkt.stream_index = a
      · cases w <;>
          simp [capture_loop, capture_iteration, written_packets, selected_packets, ih, hp]
      · simp [capture_loop, capture_iteration, written_packets, selected_packets, ih, hp]

theorem count_error_capture_loop (a : Int) (tb_in tb_out : AVRational) (idx : Int)
    (its : List Iteration) :
    (capture_loop a tb_in tb_out idx its).count (Event.cerr Msg.error_writing_audio_frame)
      = failed_writes a its := by
  induction its with
  | nil => simp [capture_loop, failed_writes]
  | cons it rest ih =>
    rcases it with ⟨_ | pkt, w⟩
    · simp [capture_loop, capture_iteration, failed_writes, ih, List.count_cons]
    · by_cases hp : pkt.stream_index = a
      · cases w <;>
          simp [capture_loop, capture_iteration, failed_writes, ih, hp, List.count_cons]
      · simp [capture_loop, capture_iteration, failed_writes, ih, hp, List.count_cons]

theorem written_packets_setup_trace (nofile params : Bool) :
    written_packets (setup_trace nofile params) = [] := by
  cases nofile <;> cases params <;> rfl

theorem written_packets_cleanup (nofile : Bool) : written_packets (cleanup nofile) = [] := by
  cases nofile <;> rfl

theorem written_packets_main (env : Env) (h : setup_ok env) :
    written_packets (main env).trace
      = (selected_packets (find_audio_stream env.streams) env.iterations).map
          (fun p => rewrite_packet p
            (input_time_base env.streams (find_audio_stream env.streams))
            env.out_time_base env.out_index) := by
  rw [main_of_setup_ok env h]
  simp [written_packets_append, written_packets_setup_trace, written_packets_cleanup,
    written_packets_capture_loop]

theorem floor_div_bounds (m d : Int) (hd : 0 < d) :
    (m / d) * d ≤ m ∧ m < (m / d) * d + d := by
  have h1 := Int.ediv_add_emod m d
  have h2 := Int.emod_nonneg m (ne_of_gt hd)
  have h3 := Int.emod_lt_of_pos m hd
  have h4 : d * (m / d) = (m / d) * d := mul_comm _ _
  constructor <;> omega

theorem round_half_away_is_nearest (n d : Int) (hd : 0 < d) :
    2 * |round_half_away n d * d - n| ≤ d := by
  unfold round_half_away
  split_ifs with hn
  · obtain ⟨h1, h2⟩ := floor_div_bounds (n + d / 2) d hd
    have hab : |(n + d / 2) / d * d - n| ≤ d / 2 := by
      rw [abs_le]
      constructor <;> omega
    omega
  · obtain ⟨h1, h2⟩ := floor_div_bounds (-n + d / 2) d hd
    have hab : |-((-n + d / 2) / d) * d - n| ≤ d / 2 := by
      rw [abs_le, neg_mul]
      constructor <;> omega
    omega

theorem round_nearest_is_nearest (n d : Int) (hd : d ≠ 0) :
    2 * |round_nearest n d * d - n| ≤ |d| := by
  unfold round_nearest
  split_ifs with h
  · have h1 := round_half_away_is_nearest (-n) (-d) (by omega)
    have h2 : round_half_away (-n) (-d) * -d - -n = -(round_half_away (-n) (-d) * d - n) := by
      ring
    rw [h2, abs_neg] at h1
    rw [abs_of_neg h]
    exact h1
  · have hpos : 0 < d := by omega
    rw [abs_of_pos hpos]
    exact round_half_away_is_nearest n d hpos

theorem round_nearest_zero_divisor (n : Int) : round_nearest n 0 = 0 := by
  simp [round_nearest, round_half_away]

theorem round_nearest_rat (n d : Int) :
    |((round_nearest n d : Int) : ℚ) - (n : ℚ) / (d : ℚ)| ≤ 1 / 2 := by
  by_cases hd : d = 0
  · subst hd
    rw [round_nearest_zero_divisor]
    norm_num
  · have h := round_nearest_is_nearest n d hd
    have hq : (2 : ℚ) * |((round_nearest n d : Int) : ℚ) * (d : ℚ) - (n : ℚ)| ≤ |(d : ℚ)| := by
      exact_mod_cast h
    have hdq : (d : ℚ) ≠ 0 := by exact_mod_cast hd
    have hpos : 0 < |(d : ℚ)| := abs_pos.mpr hdq
    have e : ((round_nearest n d : Int) : ℚ) - (n : ℚ) / (d : ℚ)
        = (((round_nearest n d : Int) : ℚ) * (d : ℚ) - (n : ℚ)) / (d : ℚ) := by
      field_simp
    rw [e, abs_div, div_le_iff₀ hpos]
    linarith

theorem round_half_away_mono (n1 n2 d : Int) (hd : 0 < d) (h : n1 ≤ n2) :
    round_half_away n1 d ≤ round_half_away n2 d := by
  have hd2 : 0 ≤ d / 2 := Int.ediv_nonneg (le_of_lt hd) (by norm_num)
  unfold round_half_away
  split_ifs with h1 h2 h2
  · exact Int.ediv_le_ediv hd (by omega)
  · omega
  · have ha : 0 ≤ (-n1 + d / 2) / d := Int.ediv_nonneg (by omega) (le_of_lt hd)
    have hb : 0 ≤ (n2 + d / 2) / d := Int.ediv_nonneg (by omega) (le_of_lt hd)
    omega
  · have := Int.ediv_le_ediv hd (show -n2 + d / 2 ≤ -n1 + d / 2 by omega)
    omega

theorem av_rescale_q_mono (a1 a2 : Int) (bq cq : AVRational)
    (h1 : 0 < bq.num) (h2 : 0 < bq.den) (h3 : 0 < cq.num) (h4 : 0 < cq.den)
    (hf1 : a1 ≠ AV_NOPTS_VALUE) (hf2 : a2 ≠ AV_NOPTS_VALUE) (h : a1 ≤ a2) :
    av_rescale_q a1 bq cq ≤ av_rescale_q a2 bq cq := by
  have hc : 0 < cq.num * bq.den := mul_pos h3 h2
  have hc2 : ¬ cq.num * bq.den < 0 := by omega
  simp only [av_rescale_q, hf1, hf2, if_false, round_nearest, hc2]
  apply round_half_away_mono _ _ _ hc
  exact mul_le_mul_of_nonneg_right h (le_of_lt (mul_pos h1 h4))

theorem av_rescale_q_is_nearest (a : Int) (bq cq : AVRational) (hf : a ≠ AV_NOPTS_VALUE) :
    |((av_rescale_q a bq cq : Int) : ℚ)
        - ((a * (bq.num * cq.den) : Int) : ℚ) / ((bq.den * cq.num : Int) : ℚ)| ≤ 1 / 2 := by
  simp only [av_rescale_q, hf, if_false]
  rw [mul_comm bq.den cq.num]
  exact round_nearest_rat _ _

theorem av_rescale_q_unset (bq cq : AVRational) :
    av_rescale_q AV_NOPTS_VALUE bq cq = AV_NOPTS_VALUE := by
  simp [av_rescale_q]

theorem written_eq_map (env : Env) (h : setup_ok env) :
    written env = (selected env).map
      (fun p => rewrite_packet p (selected_time_base env) env.out_time_base env.out_index) :=
  written_packets_main env h

/-- C1 fails as stated at the unset marker: from time base 1/48000 to 1/44100 a
packet whose pts is the marker is written with the marker as pts, and the marker is
not within half a unit of `marker * (1 * 44100) / (48000 * 1)`, so it is not that
quotient rounded to nearest. -/
theorem marker_pts_is_not_rounded_rescaling :
    setup_ok env_unset
      ∧ selected_time_base env_unset = ⟨1, 48000⟩
      ∧ env_unset.out_time_base = ⟨1, 44100⟩
      ∧ (selected env_unset).map (fun p => p.pts) = [AV_NOPTS_VALUE]
      ∧ (written env_unset).map (fun q => q.pts) = [AV_NOPTS_VALUE]
      ∧ ¬ |((AV_NOPTS_VALUE : Int) : ℚ)
            - ((AV_NOPTS_VALUE * (1 * 44100) : Int) : ℚ) / ((48000 * 1 : Int) : ℚ)| ≤ 1 / 2 := by
  refine ⟨by decide, by decide, by decide, by decide, by decide, ?_⟩
  norm_num [AV_NOPTS_VALUE, abs_le]

/-- C1 amended: in a run whose setup succeeds, the packets handed to the writer are,
in order, the packets of the selected stream returned by successful reads, with
pts and duration rescaled from the input to the output time base, position -1
and the output stream index; the rescaling maps the unset marker to itself and
every other value `v` to `v * (num_in * den_out) / (den_in * num_out)` rounded to
nearest. -/
theorem written_packet_fields (env : Env) (h : setup_ok env) :
    (written env).map (fun q => q.pts)
        = (selected env).map (fun p => av_rescale_q p.pts (selected_time_base env) env.out_time_base)
      ∧ (written env).map (fun q => q.duration)
        = (selected env).map
            (fun p => av_rescale_q p.duration (selected_time_base env) env.out_time_base)
      ∧ (∀ q ∈ written env, q.pos = -1 ∧ q.stream_index = env.out_index)
      ∧ av_rescale_q AV_NOPTS_VALUE (selected_time_base env) env.out_time_base = AV_NOPTS_VALUE
      ∧ (∀ v : Int, v ≠ AV_NOPTS_VALUE →
          |((av_rescale_q v (selected_time_base env) env.out_time_base : Int) : ℚ)
              - ((v * ((selected_time_base env).num * env.out_time_base.den) : Int) : ℚ)
                / (((selected_time_base env).den * env.out_time_base.num : Int) : ℚ)|
            ≤ 1 / 2) := by
  rw [written_eq_map env h]
  refine ⟨?_, ?_, ?_, av_rescale_q_unset _ _, ?_⟩
  · simp [List.map_map, Function.comp_def, rewrite_packet]
  · simp [List.map_map, Function.comp_def, rewrite_packet]
  · intro q hq
    obtain ⟨p, _, rfl⟩ := List.mem_map.mp hq
    simp [rewrite_packet]
  · intro v hv
    exact av_rescale_q_is_nearest v _ _ hv

theorem written_packet_fields_witness :
    setup_ok env_happy ∧ selected env_happy = [⟨48000, 48000, 1024, 4096, 1⟩]
      ∧ (written env_happy).map (fun q => q.pts) = [44100] :=
  ⟨by decide, by decide, (written_packet_fields env_happy (by decide)).1.trans (by decide)⟩

/-- C2 fails as stated: a packet with pts 48000 and dts 0 is written with dts 44100,
while its own dts converts to 0. -/
theorem dts_is_not_converted_dts :
    setup_ok env_dts
      ∧ selected env_dts = [⟨48000, 0, 1024, 4096, 1⟩]
      ∧ (written env_dts).map (fun q => q.dts) = [44100]
      ∧ (selected env_dts).map
          (fun p => av_rescale_q p.dts (selected_time_base env_dts) env_dts.out_time_base) = [0]
      ∧ (written env_dts).map (fun q => q.dts)
          ≠ (selected env_dts).map
              (fun p => av_rescale_q p.dts (selected_time_base env_dts) env_dts.out_time_base) := by
  decide

/-- C2 amended: the dts handed to the writer is the converted pts of the packet
(line 102 copies the new pts); it is the converted input dts for every run in which
each selected packet has dts equal to pts. -/
theorem written_dts_is_converted_pts (env : Env) (h : setup_ok env) :
    (written env).map (fun q => q.dts)
        = (selected env).map (fun p => av_rescale_q p.pts (selected_time_base env) env.out_time_base)
      ∧ (∀ q ∈ written env, q.dts = q.pts)
      ∧ ((∀ p ∈ selected env, p.dts = p.pts) →
          (written env).map (fun q => q.dts)
            = (selected env).map
                (fun p => av_rescale_q p.dts (selected_time_base env) env.out_time_base)) := by
  rw [written_eq_map env h]
  refine ⟨?_, ?_, ?_⟩
  · simp [List.map_map, Function.comp_def, rewrite_packet]
  · intro q hq
    obtain ⟨p, _, rfl⟩ := List.mem_map.mp hq
    simp [rewrite_packet]
  · intro hp
    simp only [List.map_map, Function.comp_def, rewrite_packet]
    apply List.map_congr_left
    intro p hpm
    rw [hp p hpm]

theorem written_dts_is_converted_pts_witness :
    setup_ok env_dts ∧ (written env_dts).map (fun q => q.dts) = [44100] :=
  ⟨by decide, (written_dts_is_converted_pts env_dts (by decide)).1.trans (by decide)⟩

theorem not_mem_capture_loop (a : Int) (tb_in tb_out : AVRational) (idx : Int)
    (its : List Iteration) (e : Event) (he : e.is_loop_event = false) :
    e ∉ capture_loop a tb_in tb_out idx its := by
  intro hm
  have := capture_loop_loop_events a tb_in tb_out idx its e hm
  rw [he] at this
  exact Bool.noConfusion this

theorem header_writes_capture_loop (a : Int) (tb_in tb_out : AVRational) (idx : Int)
    (its : List Iteration) : header_writes (capture_loop a tb_in tb_out idx its) = 0 := by
  unfold header_writes
  rw [List.countP_eq_zero]
  intro e he
  have := capture_loop_loop_events a tb_in tb_out idx its e he
  cases e <;> simp_all [Event.is_loop_event, Event.is_header_write]

theorem acquired_of_loop_events (l : List Event) (h : ∀ e ∈ l, e.is_loop_event = true) :
    acquired l = [] := by
  induction l with
  | nil => rfl
  | cons e rest ih =>
    have he := h e (List.mem_cons_self _ _)
    have ih2 := ih (fun x hx => h x (List.mem_cons_of_mem _ hx))
    cases e <;> simp_all [Event.is_loop_event, acquired]

theorem released_of_loop_events (l : List Event) (h : ∀ e ∈ l, e.is_loop_event = true) :
    released l = [] := by
  induction l with
  | nil => rfl
  | cons e rest ih =>
    have he := h e (List.mem_cons_self _ _)
    have ih2 := ih (fun x hx => h x (List.mem_cons_of_mem _ hx))
    cases e <;> simp_all [Event.is_loop_event, released]

/-- C3: the scan selects the smallest index whose stream is audio; when no stream
is audio the scan leaves -1, the run reports the missing audio stream, returns a
nonzero status and never allocates the output container. -/
theorem audio_stream_selection (env : Env) :
    ((∃ s ∈ env.streams, s.codec_type = AVMediaType.AVMEDIA_TYPE_AUDIO) →
        ∃ i : Nat, find_audio_stream env.streams = (i : Int)
          ∧ (∃ s, env.streams.get? i = some s
              ∧ s.codec_type = AVMediaType.AVMEDIA_TYPE_AUDIO
              ∧ selected_time_base env = s.time_base)
          ∧ ∀ j, j < i → ∀ s, env.streams.get? j = some s →
              s.codec_type ≠ AVMediaType.AVMEDIA_TYPE_AUDIO)
      ∧ ((∀ s ∈ env.streams, s.codec_type ≠ AVMediaType.AVMEDIA_TYPE_AUDIO) →
          find_audio_stream env.streams = -1
            ∧ (main env).status ≠ 0
            ∧ (∀ ok, Event.avformat_alloc_output_context2 ok ∉ (main env).trace)
            ∧ (env.open_input_ok = true → env.find_stream_info_ok = true →
                Event.cerr Msg.no_audio_stream_found ∈ (main env).trace)) := by
  constructor
  · rintro ⟨s, hs, hsa⟩
    rcases find_audio_stream_from_spec env.streams 0 with ⟨_, h2⟩ | ⟨k, h1, ⟨t, ht, hta⟩, h3⟩
    · exact absurd hsa (h2 s hs)
    · refine ⟨k, by simpa [find_audio_stream] using h1, ⟨t, ht, hta, ?_⟩, h3⟩
      have hk : find_audio_stream env.streams = (k : Int) := by
        simpa [find_audio_stream] using h1
      have ht2 : env.streams[k]? = some t := by simpa using ht
      simp [selected_time_base, input_time_base, hk, ht2]
  · intro hno
    have h1 := (find_audio_stream_eq_neg_one_iff env.streams).mpr hno
    refine ⟨h1, ?_, ?_, ?_⟩
    · unfold main
      cases env.open_input_ok <;> cases env.find_stream_info_ok <;> simp [h1]
    · intro ok
      unfold main
      cases env.open_input_ok <;> cases env.find_stream_info_ok <;> simp [h1, startup]
    · intro ho hf
      unfold main
      simp [ho, hf, h1]

/-- C4 fails as stated: when the header write fails, it has been invoked once and
the trailer is never written. -/
theorem header_without_trailer :
    header_writes (main env_header_fails).trace = 1
      ∧ (main env_header_fails).trace.count Event.av_write_trailer = 0
      ∧ (main env_header_fails).status = 1 := by
  decide

/-- C4 amended: in every run the header write is invoked at most once; the trailer
is written exactly once when the header write succeeded, and not at all when the
header write failed or was never reached. -/
theorem header_once_trailer_iff_header_ok (env : Env) :
    header_writes (main env).trace ≤ 1
      ∧ (Event.avformat_write_header true ∈ (main env).trace →
          (main env).trace.count Event.av_write_trailer = 1)
      ∧ (Event.avformat_write_header true ∉ (main env).trace →
          (main env).trace.count Event.av_write_trailer = 0) := by
  by_cases h : setup_ok env
  · rw [main_of_setup_ok env h]
    have hl := header_writes_capture_loop (find_audio_stream env.streams)
      (input_time_base env.streams (find_audio_stream env.streams))
      env.out_time_base env.out_index env.iterations
    have ht := not_mem_capture_loop (find_audio_stream env.streams)
      (input_time_base env.streams (find_audio_stream env.streams))
      env.out_time_base env.out_index env.iterations Event.av_write_trailer rfl
    have hc := List.count_eq_zero.mpr ht
    unfold header_writes at hl ⊢
    refine ⟨?_, ?_, ?_⟩
    · simp only [List.countP_append, hl]
      cases env.nofile <;> cases env.parameters_ok <;> decide
    · intro _
      simp only [List.count_append, hc]
      cases env.nofile <;> cases env.parameters_ok <;> decide
    · intro hn
      exfalso
      apply hn
      cases env.nofile <;> simp [setup_trace]
  · have hm := main_of_not_setup_ok env h
    have key : ∀ nf pr : Bool, ∀ r ∈ failure_runs nf pr,
        header_writes r.trace ≤ 1
          ∧ (Event.avformat_write_header true ∈ r.trace →
              r.trace.count Event.av_write_trailer = 1)
          ∧ (Event.avformat_write_header true ∉ r.trace →
              r.trace.count Event.av_write_trailer = 0) := by decide
    exact key _ _ _ hm

theorem append_split_left {α : Type} {A C pre post : List α} {e : α}
    (h : A ++ C = pre ++ e :: post) (he : e ∉ A) :
    ∃ mid, pre = A ++ mid ∧ C = mid ++ e :: post := by
  rcases List.append_eq_append_iff.mp h with ⟨a, h1, h2⟩ | ⟨c, h1, h2⟩
  · exact ⟨a, h1, h2⟩
  · cases c with
    | nil =>
      refine ⟨[], by simpa using h1.symm, by simpa using h2.symm⟩
    | cons x c =>
      simp only [List.cons_append, List.cons.injEq] at h2
      exact absurd (by rw [h1, h2.1]; simp) he

theorem append_split_right {α : Type} {A C pre post : List α} {e : α}
    (h : A ++ C = pre ++ e :: post) (he : e ∉ C) :
    ∃ mid, A = pre ++ e :: mid ∧ post = mid ++ C := by
  rcases List.append_eq_append_iff.mp h with ⟨a, _, h2⟩ | ⟨c, h1, h2⟩
  · exact absurd (by rw [h2]; simp) he
  · cases c with
    | nil => exact absurd (by rw [← (by simpa using h2 : e :: post = C)]; simp) he
    | cons x c =>
      simp only [List.cons_append, List.cons.injEq] at h2
      exact ⟨c, by rw [h1, h2.1], h2.2⟩

theorem cleanup_split_closep (nofile : Bool) (mid post : List Event)
    (h : cleanup nofile = mid ++ Event.avio_closep :: post) :
    nofile = false ∧ mid = [Event.av_write_trailer] := by
  cases nofile with
  | true =>
    have : Event.avio_closep ∈ cleanup true := by rw [h]; simp
    exact absurd this (by decide)
  | false =>
    refine ⟨rfl, ?_⟩
    rcases mid with _ | ⟨x, _ | ⟨y, mid⟩⟩
    · simp [cleanup] at h
    · simp [cleanup] at h; simp [h.1]
    · simp [cleanup] at h
      have : Event.avio_closep ∈ [Event.avformat_close_input, Event.avformat_free_context,
          Event.avcodec_free_context, Event.av_packet_free,
          Event.cout Msg.audio_capture_complete] := by rw [h.2.2]; simp
      exact absurd this (by decide)

theorem cleanup_split_close_input (nofile : Bool) (mid post : List Event)
    (h : cleanup nofile = mid ++ Event.avformat_close_input :: post) :
    mid = [Event.av_write_trailer] ++ (if nofile then [] else [Event.avio_closep]) := by
  have tail_free : ∀ m p : List Event,
      [Event.avformat_free_context, Event.avcodec_free_context, Event.av_packet_free,
        Event.cout Msg.audio_capture_complete] ≠ m ++ Event.avformat_close_input :: p := by
    intro m p hc
    have : Event.avformat_close_input ∈ [Event.avformat_free_context,
        Event.avcodec_free_context, Event.av_packet_free,
        Event.cout Msg.audio_capture_complete] := by rw [hc]; simp
    exact absurd this (by decide)
  cases nofile with
  | true =>
    rcases mid with _ | ⟨x, _ | ⟨y, mid⟩⟩
    · simp [cleanup] at h
    · simp [cleanup] at h; simp [h.1]
    · simp [cleanup] at h
      exact absurd h.2.2 (tail_free _ _)
  | false =>
    rcases mid with _ | ⟨x, _ | ⟨y, _ | ⟨z, mid⟩⟩⟩
    · simp [cleanup] at h
    · simp [cleanup] at h
    · simp [cleanup] at h; simp [h.1, h.2]
    · simp [cleanup] at h
      exact absurd h.2.2.2 (tail_free _ _)

theorem failure_runs_events (nf pr : Bool) : ∀ r ∈ failure_runs nf pr,
    r.status = 1
      ∧ released r.trace = []
      ∧ (∀ e ∈ r.trace, e.is_packet_write = false ∧ e.is_packet_read = false
          ∧ e ≠ Event.avio_closep ∧ e ≠ Event.avformat_close_input
          ∧ e ≠ Event.av_write_trailer
          ∧ ((e = Event.avio_open true ∨ e = Event.avio_open false) → nf = false)) := by
  cases nf <;> cases pr <;> decide

theorem setup_trace_events (nf pr : Bool) :
    Event.avformat_write_header true ∈ setup_trace nf pr
      ∧ Event.av_write_trailer ∉ setup_trace nf pr
      ∧ Event.avio_closep ∉ setup_trace nf pr
      ∧ Event.avformat_close_input ∉ setup_trace nf pr
      ∧ (∀ e ∈ setup_trace nf pr, e.is_packet_write = false)
      ∧ (∀ ok, Event.avio_open ok ∈ setup_trace nf pr → nf = false ∧ ok = true)
      ∧ (nf = false → Event.avio_open true ∈ setup_trace nf pr) := by
  cases nf <;> cases pr <;> simp [setup_trace, startup, encoder_setup, Event.is_packet_write]

theorem cleanup_events (nf : Bool) :
    (∀ e ∈ cleanup nf, e.is_packet_write = false)
      ∧ (∀ ok, Event.avio_open ok ∉ cleanup nf) := by
  cases nf <;> simp [cleanup, Event.is_packet_write]

/-- C5: in every run, a packet write is preceded by a successful header write and
by no trailer write; the byte sink is opened only when the container format lacks
the no-file flag; it is closed only after it was successfully opened and after the
trailer write; and the input handle is released only after the trailer write and,
when the sink was opened, after the sink was closed. -/
theorem lifecycle_ordering (env : Env) :
    (∀ pre post pkt ok,
        (main env).trace = pre ++ Event.av_interleaved_write_frame pkt ok :: post →
          Event.avformat_write_header true ∈ pre ∧ Event.av_write_trailer ∉ pre)
      ∧ (∀ ok, Event.avio_open ok ∈ (main env).trace → env.nofile = false)
      ∧ (∀ pre post, (main env).trace = pre ++ Event.avio_closep :: post →
          Event.avio_open true ∈ pre ∧ Event.av_write_trailer ∈ pre)
      ∧ (∀ pre post, (main env).trace = pre ++ Event.avformat_close_input :: post →
          Event.av_write_trailer ∈ pre
            ∧ (Event.avio_open true ∈ pre → Event.avio_closep ∈ pre)) := by
  by_cases h : setup_ok env
  · rw [main_of_setup_ok env h]
    obtain ⟨s1, s2, s3, s4, s5, s6, s7⟩ := setup_trace_events env.nofile env.parameters_ok
    obtain ⟨c1, c2⟩ := cleanup_events env.nofile
    have hloop := not_mem_capture_loop (find_audio_stream env.streams)
      (input_time_base env.streams (find_audio_stream env.streams))
      env.out_time_base env.out_index env.iterations
    generalize capture_loop (find_audio_stream env.streams)
      (input_time_base env.streams (find_audio_stream env.streams))
      env.out_time_base env.out_index env.iterations = L at hloop
    refine ⟨?_, ?_, ?_, ?_⟩
    · intro pre post pkt ok hsplit
      rw [List.append_assoc] at hsplit
      obtain ⟨mid, hpre, hrest⟩ := append_split_left hsplit
        (fun hm => by simpa [Event.is_packet_write] using s5 _ hm)
      obtain ⟨mid2, hL, _⟩ := append_split_right hrest
        (fun hm => by simpa [Event.is_packet_write] using c1 _ hm)
      subst hpre
      refine ⟨List.mem_append_left _ s1, ?_⟩
      intro hm
      rcases List.mem_append.mp hm with hm | hm
      · exact s2 hm
      · exact hloop Event.av_write_trailer rfl (by rw [hL]; simp [hm])
    · intro ok hm
      simp only [List.mem_append] at hm
      rcases hm with (hm | hm) | hm
      · exact (s6 ok hm).1
      · exact absurd hm (hloop _ rfl)
      · exact absurd hm (c2 ok)
    · intro pre post hsplit
      obtain ⟨mid, hpre, hrest⟩ := append_split_left hsplit (by
        intro hm
        rcases List.mem_append.mp hm with hm | hm
        · exact s3 hm
        · exact hloop Event.avio_closep rfl hm)
      obtain ⟨hnf, hmid⟩ := cleanup_split_closep _ _ _ hrest
      subst hpre hmid
      exact ⟨by simp [s7 hnf], by simp⟩
    · intro pre post hsplit
      obtain ⟨mid, hpre, hrest⟩ := append_split_left hsplit (by
        intro hm
        rcases List.mem_append.mp hm with hm | hm
        · exact s4 hm
        · exact hloop Event.avformat_close_input rfl hm)
      have hmid := cleanup_split_close_input _ _ _ hrest
      subst hpre hmid
      refine ⟨by simp, ?_⟩
      intro hm
      simp only [List.mem_append] at hm
      rcases hm with (hm | hm) | hm
      · have := (s6 true hm).1
        simp [this]
      · exact absurd hm (hloop _ rfl)
      · cases hnf : env.nofile <;> simp [hnf] at hm
  · have hm := main_of_not_setup_ok env h
    obtain ⟨_, _, hev⟩ := failure_runs_events env.nofile env.parameters_ok _ hm
    refine ⟨?_, ?_, ?_, ?_⟩
    · intro pre post pkt ok hsplit
      have := (hev (Event.av_interleaved_write_frame pkt ok) (by rw [hsplit]; simp)).1
      simp [Event.is_packet_write] at this
    · intro ok hmem
      refine (hev _ hmem).2.2.2.2.2 ?_
      cases ok <;> simp
    · intro pre post hsplit
      exact absurd rfl (hev Event.avio_closep (by rw [hsplit]; simp)).2.2.1
    · intro pre post hsplit
      exact absurd rfl (hev Event.avformat_close_input (by rw [hsplit]; simp)).2.2.2.1

theorem countP_of_loop_events (l : List Event) (h : ∀ e ∈ l, e.is_loop_event = true) :
    l.countP Event.is_error_message = l.count (Event.cerr Msg.error_writing_audio_frame) := by
  induction l with
  | nil => rfl
  | cons e rest ih =>
    have he := h e (List.mem_cons_self _ _)
    have ih2 := ih (fun x hx => h x (List.mem_cons_of_mem _ hx))
    cases e with
    | cerr m =>
      cases m <;> simp_all [Event.is_loop_event, Event.is_error_message, List.count_cons]
    | _ => simp_all [Event.is_loop_event, Event.is_error_message, List.count_cons]

theorem countP_failed_write_capture_loop (a : Int) (tb_in tb_out : AVRational) (idx : Int)
    (its : List Iteration) :
    (capture_loop a tb_in tb_out idx its).countP Event.is_failed_write
      = failed_writes a its := by
  induction its with
  | nil => simp [capture_loop, failed_writes]
  | cons it rest ih =>
    rcases it with ⟨_ | pkt, w⟩
    · simp [capture_loop, capture_iteration, failed_writes, ih, List.countP_cons,
        Event.is_failed_write]
    · by_cases hp : pkt.stream_index = a
      · cases w <;>
          simp [capture_loop, capture_iteration, failed_writes, ih, hp, List.countP_cons,
            Event.is_failed_write]
      · simp [capture_loop, capture_iteration, failed_writes, ih, hp, List.countP_cons,
          Event.is_failed_write]

/-- C6: in a run that enters the capture loop, whatever writes fail, every packet
of the selected stream read in the loop is converted and handed to the writer, the
trailer is written exactly once and after all packet writes, the exit status is 0,
and the error messages logged are exactly one per failed write. -/
theorem failed_write_does_not_stop_capture (env : Env) (h : setup_ok env) :
    written env = (selected env).map
        (fun p => rewrite_packet p (selected_time_base env) env.out_time_base env.out_index)
      ∧ (main env).trace.count Event.av_write_trailer = 1
      ∧ (∀ pre post, (main env).trace = pre ++ Event.av_write_trailer :: post →
          written_packets pre = written env)
      ∧ (main env).status = 0
      ∧ (main env).trace.countP Event.is_failed_write
          = failed_writes (find_audio_stream env.streams) env.iterations
      ∧ (main env).trace.count (Event.cerr Msg.error_writing_audio_frame)
          = (main env).trace.countP Event.is_failed_write
      ∧ (main env).trace.countP Event.is_error_message
          = (main env).trace.countP Event.is_failed_write := by
  refine ⟨written_eq_map env h, ?_⟩
  unfold written
  rw [main_of_setup_ok env h]
  have hloop := not_mem_capture_loop (find_audio_stream env.streams)
    (input_time_base env.streams (find_audio_stream env.streams))
    env.out_time_base env.out_index env.iterations
  have hle := capture_loop_loop_events (find_audio_stream env.streams)
    (input_time_base env.streams (find_audio_stream env.streams))
    env.out_time_base env.out_index env.iterations
  have hfw := countP_failed_write_capture_loop (find_audio_stream env.streams)
    (input_time_base env.streams (find_audio_stream env.streams))
    env.out_time_base env.out_index env.iterations
  have hce := count_error_capture_loop (find_audio_stream env.streams)
    (input_time_base env.streams (find_audio_stream env.streams))
    env.out_time_base env.out_index env.iterations
  have hcp := countP_of_loop_events _ hle
  have htr := List.count_eq_zero.mpr (hloop Event.av_write_trailer rfl)
  generalize capture_loop (find_audio_stream env.streams)
    (input_time_base env.streams (find_audio_stream env.streams))
    env.out_time_base env.out_index env.iterations = L at *
  obtain ⟨_, s2, _⟩ := setup_trace_events env.nofile env.parameters_ok
  refine ⟨?_, ?_, rfl, ?_, ?_, ?_⟩
  · simp only [List.count_append, htr]
    cases env.nofile <;> cases env.parameters_ok <;> decide
  · intro pre post hsplit
    obtain ⟨mid, hpre, hrest⟩ := append_split_left hsplit (by
      intro hm
      rcases List.mem_append.mp hm with hm | hm
      · exact s2 hm
      · exact hloop Event.av_write_trailer rfl hm)
    have hmid : mid = [] := by
      rcases mid with _ | ⟨x, mid⟩
      · rfl
      · exfalso
        cases hnf : env.nofile <;> rw [hnf] at hrest <;> simp [cleanup] at hrest
        · have : Event.av_write_trailer ∈ [Event.avio_closep, Event.avformat_close_input,
              Event.avformat_free_context, Event.avcodec_free_context, Event.av_packet_free,
              Event.cout Msg.audio_capture_complete] := by rw [hrest.2]; simp
          exact absurd this (by decide)
        · have : Event.av_write_trailer ∈ [Event.avformat_close_input,
              Event.avformat_free_context, Event.avcodec_free_context, Event.av_packet_free,
              Event.cout Msg.audio_capture_complete] := by rw [hrest.2]; simp
          exact absurd this (by decide)
    subst hpre hmid
    simp [written_packets_append, written_packets_cleanup]
  · simp only [List.countP_append, hfw]
    have e1 : (setup_trace env.nofile env.parameters_ok).countP Event.is_failed_write = 0 := by
      cases env.nofile <;> cases env.parameters_ok <;> decide
    have e2 : (cleanup env.nofile).countP Event.is_failed_write = 0 := by
      cases env.nofile <;> cases env.parameters_ok <;> decide
    omega
  · simp only [List.countP_append, List.count_append, hfw, hce]
    have e1 : (setup_trace env.nofile env.parameters_ok).countP Event.is_failed_write = 0 := by
      cases env.nofile <;> cases env.parameters_ok <;> decide
    have e2 : (cleanup env.nofile).countP Event.is_failed_write = 0 := by
      cases env.nofile <;> cases env.parameters_ok <;> decide
    have e3 : (setup_trace env.nofile env.parameters_ok).count (Event.cerr Msg.error_writing_audio_frame) = 0 := by
      cases env.nofile <;> cases env.parameters_ok <;> decide
    have e4 : (cleanup env.nofile).count (Event.cerr Msg.error_writing_audio_frame) = 0 := by
      cases env.nofile <;> cases env.parameters_ok <;> decide
    omega
  · simp only [List.countP_append, hfw, hcp, hce]
    have e1 : (setup_trace env.nofile env.parameters_ok).countP Event.is_failed_write = 0 := by
      cases env.nofile <;> cases env.parameters_ok <;> decide
    have e2 : (cleanup env.nofile).countP Event.is_failed_write = 0 := by
      cases env.nofile <;> cases env.parameters_ok <;> decide
    have e3 : (setup_trace env.nofile env.parameters_ok).countP Event.is_error_message = 0 := by
      cases env.nofile <;> cases env.parameters_ok <;> decide
    have e4 : (cleanup env.nofile).countP Event.is_error_message = 0 := by
      cases env.nofile <;> cases env.parameters_ok <;> decide
    omega

theorem failed_write_does_not_stop_capture_witness :
    setup_ok env_fifth_write_fails
      ∧ (written env_fifth_write_fails).map (fun q => q.pts) = [0, 941, 1882, 2822, 3763, 4704]
      ∧ (main env_fifth_write_fails).trace.count Event.av_write_trailer = 1
      ∧ (main env_fifth_write_fails).status = 0
      ∧ (main env_fifth_write_fails).trace.countP Event.is_error_message = 1 :=
  ⟨by decide, by decide,
    (failed_write_does_not_stop_capture env_fifth_write_fails (by decide)).2.1,
    by decide, by decide⟩

theorem written_getElem_opt (env : Env) (h : setup_ok env) (i : Nat) (p q : AVPacket)
    (hp : (selected env)[i]? = some p) (hq : (written env)[i]? = some q) :
    q = rewrite_packet p (selected_time_base env) env.out_time_base env.out_index := by
  rw [written_eq_map env h, List.getElem?_map, hp] at hq
  simpa using hq.symm

/-- C7 fails on the code: when `avcodec_parameters_from_context` reports a failure
(line 77), a step of the stream attachment, `main` does not test the status; the run
enters the capture loop, reads and writes a packet and returns 0.  The setup
outcomes that `main` does test are fatal: when one of them fails the status is
nonzero and no packet is read or written, and the status is 0 exactly when all of
them succeed. -/
theorem unchecked_setup_failure_is_not_fatal :
    ¬ all_setup_steps_ok env_parameters_fail
      ∧ Event.avcodec_parameters_from_context false ∈ (main env_parameters_fail).trace
      ∧ (main env_parameters_fail).status = 0
      ∧ Event.av_read_frame true ∈ (main env_parameters_fail).trace
      ∧ written env_parameters_fail = [⟨44100, 44100, 941, -1, 0⟩]
      ∧ (∀ env, ¬ setup_ok env →
          (main env).status ≠ 0
            ∧ ∀ e ∈ (main env).trace, e.is_packet_read = false ∧ e.is_packet_write = false)
      ∧ (∀ env, (main env).status = 0 ↔ setup_ok env) := by
  have hfail : ∀ env, ¬ setup_ok env → (main env).status = 1
      ∧ ∀ e ∈ (main env).trace, e.is_packet_read = false ∧ e.is_packet_write = false := by
    intro env h
    obtain ⟨h1, _, h3⟩ :=
      failure_runs_events env.nofile env.parameters_ok _ (main_of_not_setup_ok env h)
    exact ⟨h1, fun e he => ⟨(h3 e he).2.1, (h3 e he).1⟩⟩
  refine ⟨by decide, by decide, by decide, by decide, by decide, ?_, ?_⟩
  · intro env h
    obtain ⟨h1, h2⟩ := hfail env h
    exact ⟨by rw [h1]; decide, h2⟩
  · intro env
    constructor
    · intro hs
      by_contra h
      rw [(hfail env h).1] at hs
      exact absurd hs (by decide)
    · intro h
      rw [main_of_setup_ok env h]

/-- C8 fails on the code: when the stream-info probe fails after the device was
opened, the run ends holding the input handle and releases nothing; in fact no run
that ends in a failed setup step releases any resource, while a run whose setup
succeeds releases each resource it acquired exactly once. -/
theorem early_return_releases_nothing :
    acquired (main env_probe_fails).trace = [Resource.input_handle]
      ∧ released (main env_probe_fails).trace = []
      ∧ (main env_probe_fails).status = 1
      ∧ (∀ env, ¬ setup_ok env → released (main env).trace = [])
      ∧ (∀ env, setup_ok env →
          (released (main env).trace).Perm (acquired (main env).trace)
            ∧ (released (main env).trace).Nodup) := by
  refine ⟨by decide, by decide, by decide, ?_, ?_⟩
  · intro env h
    exact (failure_runs_events env.nofile env.parameters_ok _ (main_of_not_setup_ok env h)).2.1
  · intro env h
    rw [main_of_setup_ok env h]
    have hle := capture_loop_loop_events (find_audio_stream env.streams)
      (input_time_base env.streams (find_audio_stream env.streams))
      env.out_time_base env.out_index env.iterations
    simp only [acquired_append, released_append, acquired_of_loop_events _ hle,
      released_of_loop_events _ hle]
    cases env.nofile <;> cases env.parameters_ok <;> decide

/-- C9: a packet of the selected stream whose pts is the unset marker is handed to
the writer with the unset marker as pts and as dts, whatever the input and output
time bases. -/
theorem unset_pts_is_preserved (env : Env) (h : setup_ok env)
    (i : Nat) (p q : AVPacket)
    (hp : (selected env)[i]? = some p) (hq : (written env)[i]? = some q)
    (hunset : p.pts = AV_NOPTS_VALUE) :
    q.pts = AV_NOPTS_VALUE ∧ q.dts = AV_NOPTS_VALUE := by
  have hqe := written_getElem_opt env h i p q hp hq
  subst hqe
  simp [rewrite_packet, hunset, av_rescale_q_unset]

theorem unset_pts_is_preserved_witness :
    setup_ok env_unset
      ∧ (selected env_unset)[0]? = some ⟨AV_NOPTS_VALUE, 7, 1024, 4096, 1⟩
      ∧ (written env_unset)[0]? = some ⟨AV_NOPTS_VALUE, AV_NOPTS_VALUE, 941, -1, 0⟩
      ∧ ((⟨AV_NOPTS_VALUE, AV_NOPTS_VALUE, 941, -1, 0⟩ : AVPacket).pts = AV_NOPTS_VALUE
          ∧ (⟨AV_NOPTS_VALUE, AV_NOPTS_VALUE, 941, -1, 0⟩ : AVPacket).dts = AV_NOPTS_VALUE) :=
  ⟨by decide, by decide, by decide,
    unset_pts_is_preserved env_unset (by decide) 0
      ⟨AV_NOPTS_VALUE, 7, 1024, 4096, 1⟩
      ⟨AV_NOPTS_VALUE, AV_NOPTS_VALUE, 941, -1, 0⟩
      (by decide) (by decide) rfl⟩

/-- C10: for positive input and output time bases, two packets of the selected
stream with finite (set) pts t1 < t2 are written with pts u1 <= u2. -/
theorem written_pts_monotone (env : Env) (h : setup_ok env)
    (h1 : 0 < (selected_time_base env).num) (h2 : 0 < (selected_time_base env).den)
    (h3 : 0 < env.out_time_base.num) (h4 : 0 < env.out_time_base.den)
    (i j : Nat) (p1 p2 q1 q2 : AVPacket)
    (hp1 : (selected env)[i]? = some p1) (hq1 : (written env)[i]? = some q1)
    (hp2 : (selected env)[j]? = some p2) (hq2 : (written env)[j]? = some q2)
    (hf1 : p1.pts ≠ AV_NOPTS_VALUE) (hf2 : p2.pts ≠ AV_NOPTS_VALUE)
    (hlt : p1.pts < p2.pts) :
    q1.pts = av_rescale_q p1.pts (selected_time_base env) env.out_time_base
      ∧ q2.pts = av_rescale_q p2.pts (selected_time_base env) env.out_time_base
      ∧ q1.pts ≤ q2.pts := by
  have e1 := written_getElem_opt env h i p1 q1 hp1 hq1
  have e2 := written_getElem_opt env h j p2 q2 hp2 hq2
  subst e1 e2
  refine ⟨rfl, rfl, ?_⟩
  exact av_rescale_q_mono _ _ _ _ h1 h2 h3 h4 hf1 hf2 (le_of_lt hlt)

theorem written_pts_monotone_witness :
    setup_ok env_two_packets
      ∧ (written env_two_packets).map (fun q => q.pts) = [919, 920]
      ∧ (919 : Int) ≤ 920 :=
  ⟨by decide, by decide,
    by
      have hw := written_pts_monotone env_two_packets (by decide) (by decide) (by decide)
        (by decide) (by decide) 0 1 ⟨1000, 1000, 1024, 0, 1⟩ ⟨1001, 1001, 1024, 0, 1⟩
        ⟨919, 919, 941, -1, 0⟩ ⟨920, 920, 941, -1, 0⟩
        (by decide) (by decide) (by decide) (by decide) (by decide) (by decide) (by decide)
      exact hw.2.2⟩

end VoiceRecorder
